import Mathlib

/-!
Shallow embedding of `datapoint_access.py`, a small Met Office DataPoint
client (class `DPRequest`), together with proofs about its request-building
lifecycle.

Modelling conventions:
* Python strings are `String`; `str.format` with `\x7b\x7d` placeholders is
  `pyFormat`; `str.split` on a single character is `pySplit`.
* The mutable instance attributes set by `DPRequest.__init__` form the
  structure `DPRequest`; each method is a function from a `DPRequest` to an
  `OpResult` holding the raised exception (if any), the post-call state, and
  the list of URLs handed to the HTTP transport during the call (in order).
* The external collaborators are parameters: `HttpTransport` stands for
  `urllib2.urlopen(...).read()` (returning the body, or an `HTTPError`
  carrying status and reason), `JsonLoads` stands for `json.loads`.
* Python exceptions are the inductive `DPError`.  The spec's error kinds map
  to: `InvalidRequestType` / `InvalidLocation` / `RequestNotBuilt` are
  `ValueError`s with the corresponding messages, `TransportError` is
  `DPError.httpError`, `DecodeError` is whatever `JsonLoads` returns on bad
  input.
* An attribute read of a name never assigned by `__init__` raises
  `AttributeError`; this matters for `self.locn_id` in `common_requests`.
-/

/-- Characters of `template.format(args...)` for templates whose only fields
are empty `\x7b\x7d` placeholders, filled left to right.  The arm keeping a
placeholder when the argument list is exhausted corresponds to a Python
`IndexError`; every call in this development supplies enough arguments, so
that arm is unreachable here. -/
def fmtChars : List Char → List String → List Char
  | [], _ => []
  | '\x7b' :: '\x7d' :: cs, a :: rest => a.data ++ fmtChars cs rest
  | '\x7b' :: '\x7d' :: cs, [] => '\x7b' :: '\x7d' :: fmtChars cs []
  | c :: cs, args => c :: fmtChars cs args

/-- Python `template.format(args...)` restricted to empty `\x7b\x7d`
placeholders (the only form the source uses). -/
def pyFormat (t : String) (args : List String) : String :=
  String.mk (fmtChars t.data args)

/-- Characters of Python `s.split(sep)` for a one-character separator. -/
def splitChar (sep : Char) : List Char → List (List Char)
  | [] => [[]]
  | c :: cs =>
    if c == sep then [] :: splitChar sep cs
    else
      match splitChar sep cs with
      | [] => [[c]]
      | g :: gs => (c :: g) :: gs

/-- Python `s.split(sep)` for a one-character separator. -/
def pySplit (s : String) (sep : Char) : List String :=
  (splitChar sep s.data).map String.mk

/-- Value of a `**kwargs` entry: the source only distinguishes `int` values
(via `isinstance(val, int)`) from everything else, which is interpolated
verbatim; non-integer values in this model are strings. -/
inductive PyVal where
  | pint : Int → PyVal
  | pstr : String → PyVal
deriving DecidableEq, Repr

/-- Python `str(val)` for a kwargs value. -/
def PyVal.toStr : PyVal → String
  | .pint n => toString n
  | .pstr s => s

/-- Python `isinstance(val, int)` for a kwargs value. -/
def PyVal.isInt : PyVal → Bool
  | .pint _ => true
  | .pstr _ => false

/-- Status and reason carried by a `urllib2.HTTPError` (non-2xx response). -/
structure HTTPError where
  code : Nat
  reason : String
deriving DecidableEq, Repr

/-- Generic decoded JSON value, the result type of `json.loads`. -/
inductive JValue where
  | jnull : JValue
  | jbool : Bool → JValue
  | jnum : Int → JValue
  | jstr : String → JValue
  | jarr : List JValue → JValue
  | jobj : List (String × JValue) → JValue

/-- Exceptions raised by the embedded code. -/
inductive DPError where
  | attributeError : String → DPError
  | valueError : String → DPError
  | typeError : String → DPError
  | httpError : HTTPError → DPError
deriving DecidableEq, Repr

/-- Instance attributes of `DPRequest`, exactly those assigned by
`__init__` (`data_type`, `wx_type`, `api_key`, `time_period`, `site_id`,
`kwargs`, `base_url`, `data_container`, `request_str`, `http_code`,
`response`, `data`).  `kwargs` is the keyword-option mapping, modelled as an
association list in iteration order. -/
structure DPRequest where
  data_type : String
  wx_type : String
  api_key : String
  time_period : String
  site_id : String
  kwargs : List (String × PyVal)
  base_url : String
  data_container : String
  request_str : Option String
  http_code : Option Nat
  response : Option String
  data : Option JValue

/-- Class constant `DPRequest.data_types`. -/
def DPRequest.data_types : List String := ["val", "txt"]

/-- Class constant `DPRequest.unsupported_data_types`. -/
def DPRequest.unsupported_data_types : List String := ["image", "layer"]

/-- Class constant `DPRequest.wx_types`. -/
def DPRequest.wx_types : List String := ["wxfcs", "wxobs"]

/-- Class constant `DPRequest.request_types`: the six common-request
shorthand names and their resource-path templates. -/
def DPRequest.request_types : List (String × String) :=
  [("fcs_sites", "val/wxfcs/all/\x7b\x7d/sitelist"),
   ("fcs_capabilities", "val/wxfcs/all/\x7b\x7d/capabilities"),
   ("fcs_fiveday", "val/wxfcs/all/\x7b\x7d/\x7b\x7d"),
   ("obs_sites", "val/wxobs/all/\x7b\x7d/sitelist"),
   ("obs_capabilities", "val/wxobs/all/\x7b\x7d/capabilities"),
   ("obs_fiveday", "val/wxobs/all/\x7b\x7d/\x7b\x7d")]

/-- `DPRequest.__init__`: stores the caller's configuration and initialises
the derived state to absent.  The source also accepts a `request_type`
keyword argument that it never stores or reads, so it is omitted here. -/
def DPRequest.init (data_type wx_type api_key time_period site_id : String)
    (kwargs : List (String × PyVal)) : DPRequest :=
  { data_type := data_type
    wx_type := wx_type
    api_key := api_key
    time_period := time_period
    site_id := site_id
    kwargs := kwargs
    base_url := "http://datapoint.metoffice.gov.uk/public/data/\x7b\x7d?\x7b\x7dkey=\x7b\x7d"
    data_container := "json"
    request_str := none
    http_code := none
    response := none
    data := none }

/-- Reading `self.locn_id`: `__init__` assigns `site_id` but never `locn_id`,
so in the source this attribute access raises
`AttributeError: ... locn_id ...`, whatever the state. -/
def DPRequest.locn_id (_ : DPRequest) : Except DPError String :=
  .error (.attributeError "locn_id")

/-- External HTTP transport: `urllib2.urlopen(url).read()`, either the raw
body or an `HTTPError` for a non-success status. -/
def HttpTransport : Type := String → Except HTTPError String

/-- External JSON decoder: `json.loads`, either a decoded value or the
decode exception. -/
def JsonLoads : Type := String → Except DPError JValue

/-- Result of one method call: the raised exception (if any), the state of
the instance after the call, and the URLs passed to the HTTP transport
during the call, in order. -/
structure OpResult where
  err : Option DPError
  state : DPRequest
  fetched : List String

/-- `DPRequest._request`: sends `self.request_str` through the transport and
stores the body in `self.response`; an `HTTPError` is re-raised unmodified;
if `request_str` was never set, raises
`ValueError("Request string has not been set.")`. -/
def DPRequest._request (http : HttpTransport) (s : DPRequest) : OpResult :=
  match s.request_str with
  | some url =>
    match http url with
    | .ok body => ⟨none, { s with response := some body }, [url]⟩
    | .error e => ⟨some (.httpError e), s, [url]⟩
  | none => ⟨some (.valueError "Request string has not been set."), s, []⟩

/-- `DPRequest.query_string`: the best-known URL (`base_url` as the sentinel
before any build). -/
def DPRequest.query_string (s : DPRequest) : String :=
  match s.request_str with
  | none => s.base_url
  | some r => r

/-- The resource string assembled inline in `build_request` when no
`resource` override is given:
`format` of the five segments into the slash template. -/
def DPRequest.resource_path (s : DPRequest) : String :=
  pyFormat "\x7b\x7d/\x7b\x7d/\x7b\x7d/\x7b\x7d/\x7b\x7d"
    [s.data_type, s.wx_type, s.time_period, s.data_container, s.site_id]

/-- One `sub_query.format(kw, '=', val, query_end)` segment of the query,
with the `res`/integer special case selecting the `hourly&` terminator. -/
def sub_query (kw : String) (val : PyVal) : String :=
  pyFormat "\x7b\x7d\x7b\x7d\x7b\x7d\x7b\x7d"
    [kw, "=", val.toStr, if kw == "res" && val.isInt then "hourly&" else "&"]

/-- The accumulated query fragment: one segment per kwargs entry, in
iteration order, starting from the empty string. -/
def build_query : List (String × PyVal) → String
  | [] => ""
  | (kw, val) :: rest => sub_query kw val ++ build_query rest

/-- The URL assigned to `self.request_str` by `build_request`: `base_url`
formatted with the resource (the override, or the inline builder), the
query fragment, and the API key. -/
def DPRequest.built_url (resource : Option String) (s : DPRequest) : String :=
  pyFormat s.base_url [resource.getD s.resource_path, build_query s.kwargs, s.api_key]

/-- `DPRequest.build_request`: assembles `request_str` from the instance
fields (or the `resource` override), stores it, then immediately calls
`_request`.  The two `print` statements have no effect on the state. -/
def DPRequest.build_request (http : HttpTransport) (resource : Option String)
    (s : DPRequest) : OpResult :=
  DPRequest._request http { s with request_str := some (s.built_url resource) }

/-- `DPRequest.common_requests`: resolves a shorthand name against
`request_types` and delegates to `build_request`.  Two reachable slips of
the source are embedded faithfully:
* for the five-day shorthands the guard evaluates `self.locn_id`, an
  attribute `__init__` never sets, so an `AttributeError` is raised before
  the site-id check (the `ValueError` branch below it is unreachable);
* for an unrecognised name the message formatting calls `c_keys()` where
  `c_keys` is the list `self.request_types.keys()`, raising
  `TypeError: \x27list\x27 object is not callable` before the intended
  `ValueError` can be raised. -/
def DPRequest.common_requests (http : HttpTransport) (request_type : String)
    (s : DPRequest) : OpResult :=
  let c_keys := DPRequest.request_types.map Prod.fst
  if c_keys.contains request_type then
    match pySplit request_type '_' with
    | [wx, common_type] =>
      if common_type == "fiveday" then
        match s.locn_id with
        | .error e => ⟨some e, s, []⟩
        | .ok lid =>
          if lid == "all" then
            ⟨some (.valueError ("Location ID cannot equal \x27all\x27 for a five-day "
              ++ wx ++ " request")), s, []⟩
          else
            s.build_request http
              (some (pyFormat ((DPRequest.request_types.lookup request_type).getD "")
                [s.data_container, lid]))
      else
        s.build_request http
          (some (pyFormat ((DPRequest.request_types.lookup request_type).getD "")
            [s.data_container]))
    | _ => ⟨some (.valueError "unpacking request_type.split failed"), s, []⟩
  else
    ⟨some (.typeError "\x27list\x27 object is not callable"), s, []⟩

/-- `DPRequest.parse_response`: if no response is stored yet, either trigger
`_request` (when a URL was built) or raise
`ValueError("Request string has not been defined.")`; then decode the stored
response with `json.loads` and store the result in `self.data`.  The
`typeError` arm models `json.loads(None)` and is unreachable, since a
successful `_request` always stores a response. -/
def DPRequest.parse_response (http : HttpTransport) (jloads : JsonLoads)
    (s : DPRequest) : OpResult :=
  match s.response with
  | some body =>
    match jloads body with
    | .ok v => ⟨none, { s with data := some v }, []⟩
    | .error e => ⟨some e, s, []⟩
  | none =>
    match s.request_str with
    | none => ⟨some (.valueError "Request string has not been defined."), s, []⟩
    | some _ =>
      let r := DPRequest._request http s
      match r.err with
      | some e => ⟨some e, r.state, r.fetched⟩
      | none =>
        match r.state.response with
        | some body =>
          match jloads body with
          | .ok v => ⟨none, { r.state with data := some v }, r.fetched⟩
          | .error e => ⟨some e, r.state, r.fetched⟩
        | none => ⟨some (.typeError "expected string or buffer"), r.state, r.fetched⟩

/-! ## General lemmas about the embedded operations -/

/-- Strings with equal character data are equal. -/
theorem string_eq_of_data (a b : String) (h : a.data = b.data) : a = b := by
  cases a; cases b; simp_all

/-- Filling the five-slot slash template is plain slash-joined concatenation. -/
theorem resource_fmt (dt wt tp dc site : String) :
    pyFormat "\x7b\x7d/\x7b\x7d/\x7b\x7d/\x7b\x7d/\x7b\x7d" [dt, wt, tp, dc, site]
      = dt ++ "/" ++ wt ++ "/" ++ tp ++ "/" ++ dc ++ "/" ++ site := by
  apply string_eq_of_data
  simp [pyFormat, fmtChars, String.data_append]

/-- Two configurations that differ only in `site_id` build different URLs:
the URL determines the site id. -/
theorem url_site_inj (dt wt tp key site site2 : String) (kwargs : List (String × PyVal))
    (h : (DPRequest.init dt wt key tp site kwargs).built_url none
       = (DPRequest.init dt wt key tp site2 kwargs).built_url none) : site = site2 := by
  have h2 := congrArg String.data h
  simp [DPRequest.built_url, DPRequest.resource_path, DPRequest.init, pyFormat, fmtChars,
    String.data_append] at h2
  exact string_eq_of_data _ _ h2

/-- `build_request` only ever touches `request_str` (always) and `response`
(on transport success); every configuration field survives unchanged. -/
theorem build_state_fields (http : HttpTransport) (resource : Option String) (s : DPRequest) :
    ∃ resp, (s.build_request http resource).state
      = { s with request_str := some (s.built_url resource), response := resp } := by
  unfold DPRequest.build_request DPRequest._request
  cases h : http (s.built_url resource) with
  | ok body => exact ⟨some body, by simp [h]⟩
  | error e => exact ⟨s.response, by simp [h]⟩

/-- Every kwargs entry contributes its own `sub_query` segment, verbatim,
somewhere in the accumulated query fragment. -/
theorem build_query_infix (kw : String) (v : PyVal) (kwargs : List (String × PyVal))
    (h : (kw, v) ∈ kwargs) :
    ∃ a b, build_query kwargs = a ++ (sub_query kw v ++ b) := by
  induction kwargs with
  | nil => cases h
  | cons hd tl ih =>
    cases h with
    | head =>
      exact ⟨"", build_query tl, by simp [build_query, String.empty_append]⟩
    | tail _ hmem =>
      obtain ⟨a, b, hab⟩ := ih hmem
      exact ⟨sub_query hd.1 hd.2 ++ a, b, by
        simp [build_query, hab, String.append_assoc]⟩

/-- `_request` never changes `request_str`. -/
theorem request_state_request_str (http : HttpTransport) (s : DPRequest) :
    (DPRequest._request http s).state.request_str = s.request_str := by
  unfold DPRequest._request
  cases hr : s.request_str with
  | none => simp [hr]
  | some u => cases hh : http u <;> simp [hh, hr]

/-- A failing `_request` leaves the state untouched. -/
theorem request_err_state (http : HttpTransport) (s : DPRequest)
    (h : (DPRequest._request http s).err.isSome) : (DPRequest._request http s).state = s := by
  unfold DPRequest._request at *
  cases hr : s.request_str with
  | none => simp
  | some u => cases hh : http u <;> simp_all [hr]

/-- After `build_request`, `request_str` holds the recomputed URL, whatever
the transport did. -/
theorem build_request_request_str (http : HttpTransport) (resource : Option String)
    (s : DPRequest) :
    (s.build_request http resource).state.request_str = some (s.built_url resource) := by
  unfold DPRequest.build_request
  rw [request_state_request_str]

/-- `build_request` hands exactly one URL to the transport: the one it just
stored. -/
theorem build_request_fetched (http : HttpTransport) (resource : Option String)
    (s : DPRequest) :
    (s.build_request http resource).fetched = [s.built_url resource] := by
  unfold DPRequest.build_request DPRequest._request
  cases hh : http (s.built_url resource) <;> simp [hh]

/-- When `build_request` fails, the state it leaves behind is the input
state with only `request_str` overwritten. -/
theorem build_request_err_state (http : HttpTransport) (resource : Option String)
    (s : DPRequest) (h : (s.build_request http resource).err.isSome) :
    (s.build_request http resource).state
      = { s with request_str := some (s.built_url resource) } := by
  unfold DPRequest.build_request at *
  exact request_err_state http _ h

/-- When the transport answers, `build_request` raises nothing. -/
theorem build_request_ok_err (http : HttpTransport) (resource : Option String)
    (s : DPRequest) (body : String) (hok : http (s.built_url resource) = .ok body) :
    (s.build_request http resource).err = none := by
  unfold DPRequest.build_request DPRequest._request
  simp [hok]

/-- `parse_response` on a handle with neither a built URL nor a stored
response raises the request-not-built `ValueError` and changes nothing. -/
theorem parse_unbuilt (http : HttpTransport) (jloads : JsonLoads) (s : DPRequest)
    (h1 : s.request_str = none) (h2 : s.response = none) :
    s.parse_response http jloads
      = ⟨some (.valueError "Request string has not been defined."), s, []⟩ := by
  unfold DPRequest.parse_response
  simp [h1, h2]

/-- A transport failure surfaces from `_request` as the wrapped `HTTPError`,
after exactly one fetch attempt, with the state untouched. -/
theorem request_transport_error (http : HttpTransport) (s : DPRequest) (u : String)
    (e : HTTPError) (h1 : s.request_str = some u) (hh : http u = .error e) :
    DPRequest._request http s = ⟨some (.httpError e), s, [u]⟩ := by
  unfold DPRequest._request
  simp [h1, hh]

/-- A transport failure during the fetch triggered by `parse_response`
surfaces unmodified, after exactly one fetch attempt, with the state
untouched. -/
theorem parse_transport_error (http : HttpTransport) (jloads : JsonLoads) (s : DPRequest)
    (u : String) (e : HTTPError) (h1 : s.request_str = some u) (h2 : s.response = none)
    (hh : http u = .error e) :
    s.parse_response http jloads = ⟨some (.httpError e), s, [u]⟩ := by
  unfold DPRequest.parse_response
  simp [h1, h2, request_transport_error http s u e h1 hh]

/-- A failing `parse_response` never changes `request_str` or `data`, and
its effect on `response` is fully characterised: either `response` is left
unchanged, or the parse itself triggered the send (no response was stored),
that send succeeded, only the decode then failed, and `response` now holds
exactly the fetched body. -/
theorem parse_err_preserves (http : HttpTransport) (jloads : JsonLoads) (s : DPRequest)
    (h : (s.parse_response http jloads).err.isSome) :
    (s.parse_response http jloads).state.request_str = s.request_str
    ∧ (s.parse_response http jloads).state.data = s.data
    ∧ ((s.parse_response http jloads).state.response = s.response
       ∨ (s.response = none
          ∧ ∃ u body, s.request_str = some u ∧ http u = .ok body
            ∧ (∃ e, jloads body = .error e)
            ∧ (s.parse_response http jloads).state.response = some body)) := by
  cases hresp : s.response with
  | some body =>
    cases hj : jloads body with
    | ok v =>
      have hp : s.parse_response http jloads = ⟨none, { s with data := some v }, []⟩ := by
        unfold DPRequest.parse_response
        simp [hresp, hj]
      rw [hp] at h
      simp at h
    | error e =>
      have hp : s.parse_response http jloads = ⟨some e, s, []⟩ := by
        unfold DPRequest.parse_response
        simp [hresp, hj]
      rw [hp]
      exact ⟨rfl, rfl, Or.inl hresp⟩
  | none =>
    cases hreq : s.request_str with
    | none =>
      rw [parse_unbuilt http jloads s hreq hresp]
      exact ⟨hreq, rfl, Or.inl hresp⟩
    | some u =>
      cases hh : http u with
      | error e =>
        rw [parse_transport_error http jloads s u e hreq hresp hh]
        exact ⟨hreq, rfl, Or.inl hresp⟩
      | ok body =>
        have hr : DPRequest._request http s
            = ⟨none, { s with response := some body }, [u]⟩ := by
          unfold DPRequest._request
          simp [hreq, hh]
        cases hj : jloads body with
        | ok v =>
          have hp : s.parse_response http jloads
              = ⟨none, { s with response := some body, data := some v }, [u]⟩ := by
            unfold DPRequest.parse_response
            simp [hresp, hreq, hr, hj]
          rw [hp] at h
          simp at h
        | error e =>
          have hp : s.parse_response http jloads
              = ⟨some e, { s with response := some body }, [u]⟩ := by
            unfold DPRequest.parse_response
            simp [hresp, hreq, hr, hj]
          rw [hp]
          exact ⟨hreq, rfl, Or.inr ⟨rfl, u, body, rfl, hh, ⟨e, hj⟩, rfl⟩⟩

/-! ## Claims -/

/-- C1: the claim says resolving either five-day shorthand with site id
`"all"` fails with the `InvalidLocation` `ValueError` naming the variant.
In the code, the guard reads `self.locn_id`, an attribute `__init__` never
assigns (it assigns `site_id`), so both five-day shorthands fail with an
`AttributeError` instead — before the site-id check, for every site id —
and the intended `ValueError` is unreachable.  The state (in particular
`request_str`) is indeed left untouched and no URL is built. -/
theorem C1_fiveday_locn_id_attribute_error : ∀ http : HttpTransport,
    DPRequest.common_requests http "fcs_fiveday"
        (DPRequest.init "val" "wxfcs" "KEY" "all" "all" [])
      = ⟨some (.attributeError "locn_id"),
         DPRequest.init "val" "wxfcs" "KEY" "all" "all" [], []⟩
    ∧ DPRequest.common_requests http "obs_fiveday"
        (DPRequest.init "val" "wxobs" "KEY" "all" "all" [])
      = ⟨some (.attributeError "locn_id"),
         DPRequest.init "val" "wxobs" "KEY" "all" "all" [], []⟩ :=
  fun _ => ⟨rfl, rfl⟩

/-- C2: the claim says an unrecognized shorthand fails with the
`InvalidRequestType` `ValueError` whose message lists the valid names.  In
the code the message formatting calls `c_keys()` where `c_keys` is the list
`self.request_types.keys()`, so a `TypeError` is raised while building that
message and the intended `ValueError` is unreachable.  No URL is produced:
the state, in particular `request_str`, is left untouched. -/
theorem C2_unrecognized_shorthand_type_error : ∀ http : HttpTransport,
    DPRequest.common_requests http "fcs_forecast"
        (DPRequest.init "val" "wxfcs" "KEY" "all" "3840" [])
      = ⟨some (.typeError "\x27list\x27 object is not callable"),
         DPRequest.init "val" "wxfcs" "KEY" "all" "3840" [], []⟩ :=
  fun _ => rfl

/-- C3 counterexample: a failing build is not atomic.  On a fresh handle
whose transport answers 404, `build_request` raises the transport error,
yet `request_str` has been changed from `none` to the newly computed URL. -/
theorem C3_build_failure_mutates_state :
    ((DPRequest.init "val" "wxfcs" "KEY" "all" "all" []).build_request
        (fun _ => .error ⟨404, "Not Found"⟩) none).err
      = some (.httpError ⟨404, "Not Found"⟩)
    ∧ ((DPRequest.init "val" "wxfcs" "KEY" "all" "all" []).build_request
        (fun _ => .error ⟨404, "Not Found"⟩) none).state.request_str
      ≠ (DPRequest.init "val" "wxfcs" "KEY" "all" "all" []).request_str :=
  ⟨rfl, by decide⟩

/-- C3 amended: a failing send (`_request`) leaves the state exactly as it
was; a failing build leaves `response` and `data` unchanged but has already
overwritten `request_str` with the newly computed URL; a failing parse
leaves `request_str` and `data` unchanged, and leaves `response` unchanged
as well except in one precise case: when the parse itself triggered the
send (no response was stored), that send succeeded, and only the decode
failed, `response` is populated with exactly the fetched body. -/
theorem C3_failure_state_effects (s : DPRequest) (http : HttpTransport)
    (jloads : JsonLoads) (resource : Option String) :
    ((DPRequest._request http s).err.isSome → (DPRequest._request http s).state = s)
    ∧ ((s.build_request http resource).err.isSome →
        (s.build_request http resource).state.response = s.response
        ∧ (s.build_request http resource).state.data = s.data
        ∧ (s.build_request http resource).state.request_str = some (s.built_url resource))
    ∧ ((s.parse_response http jloads).err.isSome →
        (s.parse_response http jloads).state.request_str = s.request_str
        ∧ (s.parse_response http jloads).state.data = s.data
        ∧ ((s.parse_response http jloads).state.response = s.response
           ∨ (s.response = none
              ∧ ∃ u body, s.request_str = some u ∧ http u = .ok body
                ∧ (∃ e, jloads body = .error e)
                ∧ (s.parse_response http jloads).state.response = some body))) := by
  refine ⟨request_err_state http s, fun h => ?_, parse_err_preserves http jloads s⟩
  rw [build_request_err_state http resource s h]
  exact ⟨rfl, rfl, rfl⟩

/-- C3 witness: the amended statement applied on concrete failing send,
build and parse calls; the last two groups exercise both parse-failure
modes — a decode failure on an already stored response (state fully
unchanged) and a parse that triggered a successful send before the decode
failed (the fetched body now stored in `response`). -/
theorem C3_failure_state_effects_witness :
    (DPRequest._request (fun _ => .error ⟨404, "Not Found"⟩)
        (DPRequest.init "val" "wxfcs" "KEY" "all" "all" [])).state
      = DPRequest.init "val" "wxfcs" "KEY" "all" "all" []
    ∧ (((DPRequest.init "val" "wxfcs" "KEY" "all" "all" []).build_request
          (fun _ => .error ⟨404, "Not Found"⟩) none).state.response
        = (DPRequest.init "val" "wxfcs" "KEY" "all" "all" []).response
      ∧ ((DPRequest.init "val" "wxfcs" "KEY" "all" "all" []).build_request
          (fun _ => .error ⟨404, "Not Found"⟩) none).state.data
        = (DPRequest.init "val" "wxfcs" "KEY" "all" "all" []).data
      ∧ ((DPRequest.init "val" "wxfcs" "KEY" "all" "all" []).build_request
          (fun _ => .error ⟨404, "Not Found"⟩) none).state.request_str
        = some ((DPRequest.init "val" "wxfcs" "KEY" "all" "all" []).built_url none))
    ∧ (({ DPRequest.init "val" "wxfcs" "KEY" "all" "all" [] with
            response := some "notjson" }.parse_response (fun _ => .ok "B")
          (fun _ => .error (.valueError "No JSON object could be decoded"))).state.request_str
        = ({ DPRequest.init "val" "wxfcs" "KEY" "all" "all" [] with
              response := some "notjson" } : DPRequest).request_str
      ∧ ({ DPRequest.init "val" "wxfcs" "KEY" "all" "all" [] with
            response := some "notjson" }.parse_response (fun _ => .ok "B")
          (fun _ => .error (.valueError "No JSON object could be decoded"))).state.data
        = ({ DPRequest.init "val" "wxfcs" "KEY" "all" "all" [] with
              response := some "notjson" } : DPRequest).data
      ∧ ({ DPRequest.init "val" "wxfcs" "KEY" "all" "all" [] with
            response := some "notjson" }.parse_response (fun _ => .ok "B")
          (fun _ => .error (.valueError "No JSON object could be decoded"))).state.response
        = ({ DPRequest.init "val" "wxfcs" "KEY" "all" "all" [] with
              response := some "notjson" } : DPRequest).response)
    ∧ (({ DPRequest.init "val" "wxfcs" "KEY" "all" "all" [] with
            request_str := some "U" }.parse_response (fun _ => .ok "notjson")
          (fun _ => .error (.valueError "No JSON object could be decoded"))).err.isSome
      ∧ ({ DPRequest.init "val" "wxfcs" "KEY" "all" "all" [] with
            request_str := some "U" }.parse_response (fun _ => .ok "notjson")
          (fun _ => .error (.valueError "No JSON object could be decoded"))).state.response
        = some "notjson") := by
  refine ⟨(C3_failure_state_effects _ (fun _ => .error ⟨404, "Not Found"⟩)
      (fun _ => .error (.valueError "x")) none).1 rfl,
    (C3_failure_state_effects _ (fun _ => .error ⟨404, "Not Found"⟩)
      (fun _ => .error (.valueError "x")) none).2.1 rfl,
    ⟨((C3_failure_state_effects
        { DPRequest.init "val" "wxfcs" "KEY" "all" "all" [] with response := some "notjson" }
        (fun _ => .ok "B")
        (fun _ => .error (.valueError "No JSON object could be decoded")) none).2.2 rfl).1,
     ((C3_failure_state_effects
        { DPRequest.init "val" "wxfcs" "KEY" "all" "all" [] with response := some "notjson" }
        (fun _ => .ok "B")
        (fun _ => .error (.valueError "No JSON object could be decoded")) none).2.2 rfl).2.1,
     ?_⟩, rfl, ?_⟩
  · rcases ((C3_failure_state_effects
        { DPRequest.init "val" "wxfcs" "KEY" "all" "all" [] with response := some "notjson" }
        (fun _ => .ok "B")
        (fun _ => .error (.valueError "No JSON object could be decoded")) none).2.2 rfl).2.2
      with hl | ⟨habs, _⟩
    · exact hl
    · exact absurd habs (by decide)
  · rcases ((C3_failure_state_effects
        { DPRequest.init "val" "wxfcs" "KEY" "all" "all" [] with request_str := some "U" }
        (fun _ => .ok "notjson")
        (fun _ => .error (.valueError "No JSON object could be decoded")) none).2.2 rfl).2.2
      with hl | ⟨_, u, body, _, hb, _, hstored⟩
    · exact absurd hl (by decide)
    · obtain rfl : body = "notjson" := (Except.ok.inj hb).symm
      exact hstored

/-- C4: for all string inputs, the resource built without an override is the
slash-joined concatenation of `data_type`, `wx_type`, `time_period`, the
fixed container `json` in position four, and `site_id`; and the built URL
embeds exactly that resource.  The construction is a total function with no
failure mode of its own. -/
theorem C4_resource_path_shape (dt wt tp site key : String)
    (kwargs : List (String × PyVal)) :
    (DPRequest.init dt wt key tp site kwargs).resource_path
      = dt ++ "/" ++ wt ++ "/" ++ tp ++ "/" ++ "json" ++ "/" ++ site
    ∧ (DPRequest.init dt wt key tp site kwargs).built_url none
      = "http://datapoint.metoffice.gov.uk/public/data/"
        ++ (dt ++ "/" ++ wt ++ "/" ++ tp ++ "/" ++ "json" ++ "/" ++ site) ++ "?"
        ++ build_query kwargs ++ "key=" ++ key := by
  constructor
  · exact resource_fmt dt wt tp "json" site
  · apply string_eq_of_data
    simp [DPRequest.built_url, DPRequest.resource_path, DPRequest.init, pyFormat, fmtChars,
      String.data_append]

/-- C5: an option named `res` with integer value `n` contributes the segment
`res=<n>hourly&` (terminator `hourly&`) to the query fragment; a `res`
option with the non-integer value `"x"` contributes `res=x&` with a plain
`&` terminator and no `hourly` suffix; and every other name/type
combination gets the untransformed `<kw>=<val>&` segment, so the
`res`-integer case is the only type-sensitive transform. -/
theorem C5_res_option_transform (n : Int) (kw : String) (v : PyVal)
    (kwargs : List (String × PyVal)) :
    sub_query "res" (.pint n) = "res=" ++ toString n ++ "hourly&"
    ∧ sub_query "res" (.pstr "x") = "res=x&"
    ∧ (("res", PyVal.pint n) ∈ kwargs →
        ∃ a b, build_query kwargs = a ++ (("res=" ++ toString n ++ "hourly&") ++ b))
    ∧ (("res", PyVal.pstr "x") ∈ kwargs →
        ∃ a b, build_query kwargs = a ++ ("res=x&" ++ b))
    ∧ (kw ≠ "res" ∨ v.isInt = false →
        sub_query kw v = kw ++ "=" ++ v.toStr ++ "&") := by
  have h1 : sub_query "res" (.pint n) = "res=" ++ toString n ++ "hourly&" := by
    apply string_eq_of_data
    simp [sub_query, pyFormat, fmtChars, PyVal.toStr, PyVal.isInt, String.data_append]
  have h2 : sub_query "res" (.pstr "x") = "res=x&" := by
    apply string_eq_of_data
    simp [sub_query, pyFormat, fmtChars, PyVal.toStr, PyVal.isInt, String.data_append]
  refine ⟨h1, h2, fun hm => ?_, fun hm => ?_, fun hv => ?_⟩
  · obtain ⟨a, b, hab⟩ := build_query_infix "res" (.pint n) kwargs hm
    exact ⟨a, b, by rw [hab, h1]⟩
  · obtain ⟨a, b, hab⟩ := build_query_infix "res" (.pstr "x") kwargs hm
    exact ⟨a, b, by rw [hab, h2]⟩
  · have hcond : (kw == "res" && v.isInt) = false := by
      rcases hv with h | h
      · simp [h]
      · simp [h]
    apply string_eq_of_data
    simp [sub_query, pyFormat, fmtChars, hcond, String.data_append]

/-- C5 witness: the theorem applied with the mapping containing `res = 3`
and `res = "x"`, and with the untransformed option `query_time`. -/
theorem C5_res_option_transform_witness :
    (∃ a b, build_query [("res", PyVal.pint 3), ("res", PyVal.pstr "x")]
        = a ++ (("res=" ++ toString (3 : Int) ++ "hourly&") ++ b))
    ∧ (∃ a b, build_query [("res", PyVal.pint 3), ("res", PyVal.pstr "x")]
        = a ++ ("res=x&" ++ b))
    ∧ sub_query "query_time" (PyVal.pstr "2026-10-12T06Z")
      = "query_time" ++ "=" ++ (PyVal.pstr "2026-10-12T06Z").toStr ++ "&" :=
  ⟨(C5_res_option_transform 3 "query_time" (.pstr "2026-10-12T06Z")
      [("res", .pint 3), ("res", .pstr "x")]).2.2.1 (by decide),
   (C5_res_option_transform 3 "query_time" (.pstr "2026-10-12T06Z")
      [("res", .pint 3), ("res", .pstr "x")]).2.2.2.1 (by decide),
   (C5_res_option_transform 3 "query_time" (.pstr "2026-10-12T06Z")
      [("res", .pint 3), ("res", .pstr "x")]).2.2.2.2 (Or.inl (by decide))⟩

/-- C6: with no extra options the assembled query fragment is the empty
string, and the URL stored by the build step is
`.../<resource>?key=<api_key>`, with nothing (in particular no `&`) between
the `?` and `key=`. -/
theorem C6_no_options_no_ampersand (dt wt tp site key : String) (http : HttpTransport) :
    build_query [] = ""
    ∧ ((DPRequest.init dt wt key tp site []).build_request http none).state.request_str
      = some ("http://datapoint.metoffice.gov.uk/public/data/"
          ++ (dt ++ "/" ++ wt ++ "/" ++ tp ++ "/" ++ "json" ++ "/" ++ site)
          ++ "?key=" ++ key) := by
  refine ⟨rfl, ?_⟩
  rw [build_request_request_str]
  congr 1
  apply string_eq_of_data
  simp [DPRequest.built_url, DPRequest.resource_path, DPRequest.init, pyFormat, fmtChars,
    String.data_append, build_query]

/-- C7: on a handle where no URL was ever built (and hence no response is
stored), `parse_response` raises the request-not-built `ValueError`, calls
no transport, and leaves the state — including the absent `response` and
`data` — exactly as it was. -/
theorem C7_parse_before_build (s : DPRequest) (http : HttpTransport) (jloads : JsonLoads)
    (h1 : s.request_str = none) (h2 : s.response = none) :
    s.parse_response http jloads
      = ⟨some (.valueError "Request string has not been defined."), s, []⟩ :=
  parse_unbuilt http jloads s h1 h2

/-- C7 witness: the theorem applied on a freshly constructed handle. -/
theorem C7_parse_before_build_witness :
    (DPRequest.init "val" "wxfcs" "KEY" "all" "all" []).parse_response
        (fun _ => .ok "B") (fun _ => .error (.valueError "bad json"))
      = ⟨some (.valueError "Request string has not been defined."),
         DPRequest.init "val" "wxfcs" "KEY" "all" "all" [], []⟩ :=
  C7_parse_before_build _ _ _ rfl rfl

/-- C8: when the transport answers a built URL with a non-success status,
both a direct send and a parse that triggers the send raise the transport
error carrying that exact status and reason, after exactly one fetch
attempt (no retry), and the state — in particular the absent `response` and
`data` — is left exactly as it was. -/
theorem C8_transport_error_propagates (s : DPRequest) (http : HttpTransport)
    (jloads : JsonLoads) (u : String) (e : HTTPError)
    (h1 : s.request_str = some u) (h2 : s.response = none) (hh : http u = .error e) :
    DPRequest._request http s = ⟨some (.httpError e), s, [u]⟩
    ∧ s.parse_response http jloads = ⟨some (.httpError e), s, [u]⟩ :=
  ⟨request_transport_error http s u e h1 hh,
   parse_transport_error http jloads s u e h1 h2 hh⟩

/-- C8 witness: the theorem applied on a handle with a built URL and a
transport stub answering 500. -/
theorem C8_transport_error_propagates_witness :
    DPRequest._request (fun _ => .error ⟨500, "Internal Server Error"⟩)
        { DPRequest.init "val" "wxfcs" "KEY" "all" "all" [] with request_str := some "U" }
      = ⟨some (.httpError ⟨500, "Internal Server Error"⟩),
         { DPRequest.init "val" "wxfcs" "KEY" "all" "all" [] with request_str := some "U" },
         ["U"]⟩
    ∧ DPRequest.parse_response (fun _ => .error ⟨500, "Internal Server Error"⟩)
        (fun _ => .error (.valueError "bad json"))
        { DPRequest.init "val" "wxfcs" "KEY" "all" "all" [] with request_str := some "U" }
      = ⟨some (.httpError ⟨500, "Internal Server Error"⟩),
         { DPRequest.init "val" "wxfcs" "KEY" "all" "all" [] with request_str := some "U" },
         ["U"]⟩ :=
  C8_transport_error_propagates _ _ _ "U" ⟨500, "Internal Server Error"⟩ rfl rfl rfl

/-- C9: rebuilding the same handle with unchanged inputs stores the same URL
(the build step is idempotent), while rebuilding after changing `site_id`
stores a different URL recomputed from the current configuration, and the
fetch performed by that rebuild goes to the new URL only — the stale URL is
never requested. -/
theorem C9_rebuild_recomputes (dt wt tp key site site2 : String)
    (kwargs : List (String × PyVal)) (http http2 http3 : HttpTransport)
    (hne : site ≠ site2) :
    (((DPRequest.init dt wt key tp site kwargs).build_request http none).state.build_request
        http2 none).state.request_str
      = ((DPRequest.init dt wt key tp site kwargs).build_request http none).state.request_str
    ∧ ({ ((DPRequest.init dt wt key tp site kwargs).build_request http none).state with
          site_id := site2 }.build_request http3 none).state.request_str
      = some ((DPRequest.init dt wt key tp site2 kwargs).built_url none)
    ∧ (DPRequest.init dt wt key tp site2 kwargs).built_url none
      ≠ (DPRequest.init dt wt key tp site kwargs).built_url none
    ∧ ({ ((DPRequest.init dt wt key tp site kwargs).build_request http none).state with
          site_id := site2 }.build_request http3 none).fetched
      = [(DPRequest.init dt wt key tp site2 kwargs).built_url none]
    ∧ (DPRequest.init dt wt key tp site kwargs).built_url none
      ∉ ({ ((DPRequest.init dt wt key tp site kwargs).build_request http none).state with
            site_id := site2 }.build_request http3 none).fetched := by
  obtain ⟨resp, hstate⟩ := build_state_fields http none (DPRequest.init dt wt key tp site kwargs)
  have hne2 : (DPRequest.init dt wt key tp site2 kwargs).built_url none
      ≠ (DPRequest.init dt wt key tp site kwargs).built_url none := by
    intro h
    exact hne (url_site_inj dt wt tp key site site2 kwargs h.symm)
  refine ⟨?_, ?_, hne2, ?_, ?_⟩
  · rw [build_request_request_str, hstate]; exact rfl
  · rw [build_request_request_str, hstate]; exact rfl
  · rw [build_request_fetched, hstate]; exact rfl
  · rw [build_request_fetched, hstate]
    intro hmem
    have : (DPRequest.init dt wt key tp site kwargs).built_url none
        = (DPRequest.init dt wt key tp site2 kwargs).built_url none := by
      simpa using hmem
    exact hne2 this.symm

/-- C9 witness: the theorem applied with `site_id` changed from `all` to
`3840`: the two built URLs differ. -/
theorem C9_rebuild_recomputes_witness :
    (DPRequest.init "val" "wxfcs" "KEY" "all" "3840" []).built_url none
      ≠ (DPRequest.init "val" "wxfcs" "KEY" "all" "all" []).built_url none :=
  (C9_rebuild_recomputes "val" "wxfcs" "all" "KEY" "all" "3840" []
    (fun _ => .ok "B") (fun _ => .ok "B") (fun _ => .ok "B") (by decide)).2.2.1

/-- C10: neither construction nor building validates `data_type` or
`wx_type` against the recognized enumerations: `init` is total, and for any
strings — including the unsupported names `image` and `layer` — a build
with a successful transport raises nothing and stores a URL containing both
strings verbatim. -/
theorem C10_no_data_type_validation (dt wt tp site key : String)
    (kwargs : List (String × PyVal)) (http : HttpTransport) (body : String)
    (hok : ∀ u, http u = .ok body) :
    ((DPRequest.init dt wt key tp site kwargs).build_request http none).err = none
    ∧ (∃ a b,
        ((DPRequest.init dt wt key tp site kwargs).build_request http none).state.request_str
          = some (a ++ (dt ++ b)))
    ∧ (∃ c d,
        ((DPRequest.init dt wt key tp site kwargs).build_request http none).state.request_str
          = some (c ++ (wt ++ d))) := by
  refine ⟨build_request_ok_err http none _ body (hok _), ?_, ?_⟩
  · refine ⟨"http://datapoint.metoffice.gov.uk/public/data/",
      "/" ++ wt ++ "/" ++ tp ++ "/" ++ "json" ++ "/" ++ site ++ "?"
        ++ build_query kwargs ++ "key=" ++ key, ?_⟩
    rw [build_request_request_str]
    congr 1
    apply string_eq_of_data
    simp [DPRequest.built_url, DPRequest.resource_path, DPRequest.init, pyFormat, fmtChars,
      String.data_append]
  · refine ⟨"http://datapoint.metoffice.gov.uk/public/data/" ++ dt ++ "/",
      "/" ++ tp ++ "/" ++ "json" ++ "/" ++ site ++ "?"
        ++ build_query kwargs ++ "key=" ++ key, ?_⟩
    rw [build_request_request_str]
    congr 1
    apply string_eq_of_data
    simp [DPRequest.built_url, DPRequest.resource_path, DPRequest.init, pyFormat, fmtChars,
      String.data_append]

/-- C10 witness: the theorem applied with the unsupported data type `image`
and an unrecognized weather type. -/
theorem C10_no_data_type_validation_witness :
    ((DPRequest.init "image" "wxmaps" "KEY" "all" "all" []).build_request
        (fun _ => .ok "B") none).err = none
    ∧ (∃ a b,
        ((DPRequest.init "image" "wxmaps" "KEY" "all" "all" []).build_request
            (fun _ => .ok "B") none).state.request_str
          = some (a ++ ("image" ++ b))) :=
  ⟨(C10_no_data_type_validation "image" "wxmaps" "all" "all" "KEY" [] (fun _ => .ok "B") "B"
      (fun _ => rfl)).1,
   (C10_no_data_type_validation "image" "wxmaps" "all" "all" "KEY" [] (fun _ => .ok "B") "B"
      (fun _ => rfl)).2.1⟩
